import Mathlib

/-!
Verification development for the GitHub Projects V2 GraphQL client
(`github_client.py`).  The client is embedded shallowly:

* JSON-like response payloads are the inductive type `Json`;
* Python dictionary operations (`d.get(k)`, `d.get(k, default)`,
  `d[k]`, `d[k] = v`, `"k" in d`) are the functions `pyGet`, `jGetD`,
  `jIndex`, `jSet`, `hasKey`; Python truthiness is `truthy`;
* the weakly typed caller-supplied values of
  `update_project_item_field` are `PyValue`;
* each client method is a function from a transport oracle
  `Env : GQLCall → Except Err Json` (one entry per GraphQL
  query/mutation the client can issue, with its variables) to a pair of
  the method's result and the ordered list of transport invocations it
  made.  `Err` is the single error type `GitHubClientError`.

Python raises `KeyError` on indexing a missing key; in this embedding
`jIndex` totalises that with a `null` default, and every theorem's
hypotheses guarantee the key is present, so the difference is
unobservable in the statements proved here.
-/

/-- JSON-like values as parsed from a GraphQL response body.
Objects are association lists (Python dicts have unique keys; the
responses modelled here always do). -/
inductive Json where
  | null
  | bool (b : Bool)
  | num (q : ℚ)
  | str (s : String)
  | arr (elems : List Json)
  | obj (fields : List (String × Json))

/-- The single uniform error type of the client: `GitHubClientError`,
carrying a human-readable message. -/
structure Err where
  msg : String
deriving DecidableEq

/-- First-occurrence lookup in an object's field list. -/
def jLookup : List (String × Json) → String → Option Json
  | [], _ => none
  | (k, v) :: rest, key => if k = key then some v else jLookup rest key

/-- Python `d.get(k)` on a parsed-JSON dict: `None` both when the key is
absent and when it is bound to JSON `null` (null parses to Python
`None`), hence both collapse to `none` here. -/
def pyGet (j : Json) (k : String) : Option Json :=
  match j with
  | .obj fs =>
    match jLookup fs k with
    | some .null => none
    | o => o
  | _ => none

/-- Python `d.get(k, default)`: the stored value when the key is
present (a stored `null` is returned as `null`, not the default),
otherwise the default. -/
def jGetD (j : Json) (k : String) (d : Json) : Json :=
  match j with
  | .obj fs => (jLookup fs k).getD d
  | _ => d

/-- Python `d[k]`.  Python raises `KeyError` when the key is absent;
every use below is either guarded by a truthiness check on the same key
or covered by a hypothesis that the key is present, so the `null`
default is unreachable in the facts proved about it. -/
def jIndex (j : Json) (k : String) : Json :=
  match j with
  | .obj fs => (jLookup fs k).getD .null
  | _ => .null

/-- Python `"k" in d` (key containment, regardless of the stored
value — even a stored `null` counts). -/
def hasKey (j : Json) (k : String) : Bool :=
  match j with
  | .obj fs => (jLookup fs k).isSome
  | _ => false

/-- Update the first binding of `key` in place, else append — Python
`d[key] = v` on a dict. -/
def jSetKey : List (String × Json) → String → Json → List (String × Json)
  | [], key, v => [(key, v)]
  | (k, w) :: rest, key, v =>
    if k = key then (key, v) :: rest else (k, w) :: jSetKey rest key v

/-- Python `d[k] = v` on an object. -/
def jSet (j : Json) (k : String) (v : Json) : Json :=
  match j with
  | .obj fs => .obj (jSetKey fs k v)
  | _ => j

/-- Python truthiness of a parsed-JSON value (`None`, `False`, `0`,
`""`, `[]` and the empty dict are falsy). -/
def truthy : Json → Bool
  | .null => false
  | .bool b => b
  | .num q => if q = 0 then false else true
  | .str s => if s = "" then false else true
  | .arr l => !l.isEmpty
  | .obj fs => !fs.isEmpty

/-- Truthiness of a Python `d.get(k)` result (`None` is falsy). -/
def truthyOpt : Option Json → Bool
  | none => false
  | some v => truthy v

/-- The weakly typed value a caller passes to
`update_project_item_field` (`value: Any`). -/
inductive PyValue where
  | str (s : String)
  | int (n : Int)
  | bool (b : Bool)
  | float (q : ℚ)
  | none

/-- Python `isinstance(value, str)`. -/
def isStr : PyValue → Bool
  | .str _ => true
  | _ => false

/-- Python `isinstance(value, (int, float))`.  `bool` is a subclass of
`int` in Python, so boolean values pass this test. -/
def isIntOrFloat : PyValue → Bool
  | .int _ => true
  | .float _ => true
  | .bool _ => true
  | _ => false

/-- Python `str(value)`.  (Float rendering is modelled approximately —
no claim inspects the exact text of a stringified float.) -/
def pyStr : PyValue → String
  | .str s => s
  | .int n => toString n
  | .bool b => if b then "True" else "False"
  | .float q => toString q
  | .none => "None"

/-- Python `float(value)` on an int/float/bool (`True` is `1.0`,
`False` is `0.0`); only applied under an `isIntOrFloat` guard. -/
def pyFloat : PyValue → ℚ
  | .int n => (n : ℚ)
  | .float q => q
  | .bool b => if b then 1 else 0
  | _ => 0

/-- Python `s.startswith(p)`, character-for-character. -/
def pyStartsWith (s p : String) : Bool :=
  p.data.isPrefixOf s.data

/-- The mutation-input inference of `update_project_item_field`
(the prefix-heuristic block): classify the field identifier by its
prefix and build the `ProjectV2FieldValue` input object, or raise
`GitHubClientError` on a type mismatch. -/
def infer_field_value_input (field_id : String) (value : PyValue) :
    Except Err (List (String × Json)) :=
  if pyStartsWith field_id "PVTSSF_" then
    match value with
    | .str s => .ok [("singleSelectOptionId", Json.str s)]
    | _ => .error ⟨s!"Invalid value type for single select field {field_id}. Expected option ID string."⟩
  else if pyStartsWith field_id "PVTIF_" then
    match value with
    | .str s => .ok [("iterationId", Json.str s)]
    | _ => .error ⟨s!"Invalid value type for iteration field {field_id}. Expected iteration ID string."⟩
  else if pyStartsWith field_id "PVTF_" then
    match value with
    | .str s => .ok [("text", Json.str s)]
    | v => .ok [("text", Json.str (pyStr v))]
  else if pyStartsWith field_id "PVTDF_" then
    match value with
    | .str s => .ok [("date", Json.str s)]
    | _ => .error ⟨s!"Invalid value type for date field {field_id}. Expected date string (YYYY-MM-DD)."⟩
  else if pyStartsWith field_id "PVTNU_" then
    if isIntOrFloat value then .ok [("number", Json.num (pyFloat value))]
    else .error ⟨s!"Invalid value type for number field {field_id}. Expected int or float."⟩
  else
    .ok [("text", Json.str (pyStr value))]

/-- A string sharing a prefix with `p` cannot also share a prefix with
`q` when neither of `p`, `q` is a prefix of the other. -/
theorem startsWith_excl {s p q : String}
    (h : ¬ (p.data <+: q.data) ∧ ¬ (q.data <+: p.data))
    (hp : pyStartsWith s p = true) : pyStartsWith s q = false := by
  unfold pyStartsWith at hp ⊢
  rw [List.isPrefixOf_iff_prefix] at hp
  rw [Bool.eq_false_iff, Ne, List.isPrefixOf_iff_prefix]
  intro hq
  rcases List.prefix_or_prefix_of_prefix hp hq with h1 | h2
  · exact h.1 h1
  · exact h.2 h2

/-- One transport invocation: which fixed GraphQL operation was
executed and with which variables.  Caller-supplied variables are kept
at their Python types; variables extracted from earlier responses are
raw `Json` values. -/
inductive GQLCall where
  | ownerType (login : String)
  | orgProjects (login : String) (first : Int)
  | userProjects (login : String) (first : Int)
  | projectIdQ (login : String) (number : Int)
  | projectFieldsQ (projectIdv : Json)
  | projectItemsQ (projectIdv : Json) (first : Int)
  | repositoryIdQ (owner name : String)
  | issueIdQ (owner repo : String) (number : Int)
  | createIssueM (repositoryIdv : Json) (title body : String)
  | addItemM (projectIdv contentIdv : Json)
  | addDraftM (projectIdv : Json) (title body : String)
  | updateFieldValueM (projectIdv : Json) (itemId fieldId : String)
      (value : List (String × Json))
  | deleteItemM (projectIdv : Json) (itemId : String)
  | updateProjectM (input : List (String × Json))

/-- The transport oracle: the behaviour of `execute_query` on each
possible invocation — a parsed data payload, or a `GitHubClientError`. -/
def Env : Type := GQLCall → Except Err Json

/-- Approximate rendering of Python `str()` on a parsed-JSON value,
used only inside error-message text; no theorem inspects it. -/
def jRender : Json → String
  | .null => "None"
  | .bool b => if b then "True" else "False"
  | .num q => toString q
  | .str s => s
  | .arr _ => "[...]"
  | .obj _ => "<dict>"

/-- What a single HTTP round-trip produced, before `execute_query`
classifies it: an HTTP status failure from `raise_for_status`, any
other exception (connect error, JSON parse failure, ...), or a parsed
response body. -/
inductive WireOutcome where
  | httpStatusError (status : Nat) (text : String)
  | otherException (emsg : String)
  | response (body : Json)

/-- `execute_query` (lines 40-86): raises `GitHubClientError` on an
HTTP failure, on a body containing an `errors` key, and on a body with
no (or null) `data`; otherwise returns the `data` payload.  A
`GitHubClientError` raised inside the `try` block is itself caught by
the final `except Exception` clause and re-wrapped with the
"Unexpected error" message, which this definition reflects. -/
def execute_query : WireOutcome → Except Err Json
  | .httpStatusError status text =>
    .error ⟨s!"HTTP error executing GraphQL query: {status} - {text}"⟩
  | .otherException emsg =>
    .error ⟨s!"Unexpected error executing GraphQL query: {emsg}"⟩
  | .response body =>
    if hasKey body "errors" then
      let em := jRender (jIndex body "errors")
      .error ⟨s!"Unexpected error executing GraphQL query: GraphQL query errors: {em}"⟩
    else
      match pyGet body "data" with
      | none => .error ⟨"Unexpected error executing GraphQL query: GraphQL query returned no data and no errors."⟩
      | some d => .ok d

/-- The owner-kind resolution step of `get_projects` (lines 124-137):
organization branch first, then user branch, else a NotFound-style
`GitHubClientError`.  Returns the owner type together with the owner
id read from the winning branch. -/
def resolve_owner_kind (owner : String) (result : Json) :
    Except Err (String × Json) :=
  if truthyOpt (pyGet result "organization") then
    .ok ("organization", jIndex (jIndex result "organization") "id")
  else if truthyOpt (pyGet result "user") then
    .ok ("user", jIndex (jIndex result "user") "id")
  else
    .error ⟨s!"Owner {owner} not found or type could not be determined."⟩

/-- `get_project_node_id` (lines 209-255): one lookup querying both
branches, organization preferred, NotFound-style error when neither
branch's nested project resolves. -/
def get_project_node_id (env : Env) (owner : String) (number : Int) :
    Except Err Json × List GQLCall :=
  let c := GQLCall.projectIdQ owner number
  match env c with
  | .error e => (.error e, [c])
  | .ok result =>
    if truthyOpt (pyGet result "organization") &&
        truthyOpt (pyGet (jIndex result "organization") "projectV2") then
      (.ok (jIndex (jIndex (jIndex result "organization") "projectV2") "id"), [c])
    else if truthyOpt (pyGet result "user") &&
        truthyOpt (pyGet (jIndex result "user") "projectV2") then
      (.ok (jIndex (jIndex (jIndex result "user") "projectV2") "id"), [c])
    else
      (.error ⟨s!"Project {number} not found for owner {owner}."⟩, [c])

/-- `get_projects` (lines 88-207): owner-kind lookup, then dispatch to
the organization- or user-scoped single-page (50) project fetch. -/
def get_projects (env : Env) (owner : String) : Except Err Json × List GQLCall :=
  let c1 := GQLCall.ownerType owner
  match env c1 with
  | .error e => (.error e, [c1])
  | .ok result =>
    match resolve_owner_kind owner result with
    | .error e => (.error e, [c1])
    | .ok (owner_type, _owner_id) =>
      if owner_type = "organization" then
        let c2 := GQLCall.orgProjects owner 50
        match env c2 with
        | .error e => (.error e, [c1, c2])
        | .ok r2 =>
          if !truthyOpt (pyGet r2 "organization") ||
              !truthyOpt (pyGet (jIndex r2 "organization") "projectsV2") then
            (.error ⟨s!"Could not retrieve projects for organization {owner}"⟩, [c1, c2])
          else
            (.ok (jIndex (jIndex (jIndex r2 "organization") "projectsV2") "nodes"), [c1, c2])
      else if owner_type = "user" then
        let c2 := GQLCall.userProjects owner 50
        match env c2 with
        | .error e => (.error e, [c1, c2])
        | .ok r2 =>
          if !truthyOpt (pyGet r2 "user") ||
              !truthyOpt (pyGet (jIndex r2 "user") "projectsV2") then
            (.error ⟨s!"Could not retrieve projects for user {owner}"⟩, [c1, c2])
          else
            (.ok (jIndex (jIndex (jIndex r2 "user") "projectsV2") "nodes"), [c1, c2])
      else
        (.error ⟨s!"Unexpected error retrieving projects for {owner}"⟩, [c1])

/-- Elements of a JSON array; the response paths this is applied to are
always arrays (Python would fail to iterate anything else). -/
def asArr : Json → List Json
  | .arr l => l
  | _ => []

/-- Field name of one raw field-value record:
`fv.get("field", {}).get("name", "UnknownField")`.  Python would raise
on a `field` bound to null and would use a non-string key for a
non-string name; the well-formedness hypotheses of the theorems below
rule both out, and this total model answers the sentinel there. -/
def fieldNameOf (fv : Json) : String :=
  match jGetD fv "field" (Json.obj []) with
  | .obj fs =>
    match jLookup fs "name" with
    | some (.str s) => s
    | _ => "UnknownField"
  | _ => "UnknownField"

/-- Scalar extracted from one raw field-value record by its own
`__typename` discriminator (`get_project_items`, lines 478-490). -/
def scalarOf (fv : Json) : Json :=
  match jGetD fv "__typename" Json.null with
  | .str t =>
    if t = "ProjectV2ItemFieldTextValue" then
      jGetD fv "text" (Json.str "N/A")
    else if t = "ProjectV2ItemFieldDateValue" then
      jGetD fv "date" (Json.str "N/A")
    else if t = "ProjectV2ItemFieldSingleSelectValue" then
      jGetD fv "name" (Json.str "N/A")
    else if t = "ProjectV2ItemFieldNumberValue" then
      jGetD fv "number" (Json.str "N/A")
    else if t = "ProjectV2ItemFieldIterationValue" then
      Json.str (jRender (jGetD fv "title" (Json.str "N/A")) ++ " (Start: "
        ++ jRender (jGetD fv "startDate" (Json.str "N/A")) ++ ")")
    else Json.str "N/A"
  | _ => Json.str "N/A"

/-- The `processed_values` dict built by the loop over an item's raw
field-value records (`get_project_items`, lines 475-491): Python dict
assignment, so a repeated field name keeps its first position but its
value is overwritten — last value wins. -/
def process_field_values (nodes : List Json) : List (String × Json) :=
  nodes.foldl (fun d fv => jSetKey d (fieldNameOf fv) (scalarOf fv)) []

/-- Per-item normalization of `get_project_items` (lines 473-494): when
the item has a truthy `fieldValues` holding a truthy `nodes` list, the
raw list is replaced by the flat name-to-scalar mapping; otherwise the
item is left unchanged. -/
def process_item (item : Json) : Json :=
  if truthyOpt (pyGet item "fieldValues") &&
      truthyOpt (pyGet (jIndex item "fieldValues") "nodes") then
    jSet item "fieldValues"
      (Json.obj (process_field_values (asArr (jIndex (jIndex item "fieldValues") "nodes"))))
  else item

/-- `get_project_fields` (lines 257-335). -/
def get_project_fields (env : Env) (owner : String) (number : Int) :
    Except Err Json × List GQLCall :=
  match get_project_node_id env owner number with
  | (.error e, log) => (.error e, log)
  | (.ok project_id, log) =>
    let c := GQLCall.projectFieldsQ project_id
    match env c with
    | .error e => (.error e, log ++ [c])
    | .ok result =>
      if !truthyOpt (pyGet result "node") ||
          !truthyOpt (pyGet (jIndex result "node") "fields") then
        (.error ⟨s!"Could not retrieve fields for project {owner}/{number}"⟩, log ++ [c])
      else
        (.ok (jIndex (jIndex (jIndex result "node") "fields") "nodes"), log ++ [c])

/-- `get_project_items` (lines 337-501): resolve the project id, fetch
up to `limit` items, then normalize every item's field-value list. -/
def get_project_items (env : Env) (owner : String) (number : Int) (limit : Int) :
    Except Err Json × List GQLCall :=
  match get_project_node_id env owner number with
  | (.error e, log) => (.error e, log)
  | (.ok project_id, log) =>
    let c := GQLCall.projectItemsQ project_id limit
    match env c with
    | .error e => (.error e, log ++ [c])
    | .ok result =>
      if !truthyOpt (pyGet result "node") ||
          !truthyOpt (pyGet (jIndex result "node") "items") then
        (.error ⟨s!"Could not retrieve items for project {owner}/{number}"⟩, log ++ [c])
      else
        let items := asArr (jIndex (jIndex (jIndex result "node") "items") "nodes")
        (.ok (Json.arr (items.map process_item)), log ++ [c])

/-- `create_issue` (lines 503-568): repository-id lookup, then the
`createIssue` mutation, then the nested-payload assertion. -/
def create_issue (env : Env) (owner repo title body : String) :
    Except Err Json × List GQLCall :=
  let c1 := GQLCall.repositoryIdQ owner repo
  match env c1 with
  | .error e => (.error e, [c1])
  | .ok repo_result =>
    if !truthyOpt (pyGet repo_result "repository") then
      (.error ⟨s!"Repository {owner}/{repo} not found"⟩, [c1])
    else
      let repository_id := jIndex (jIndex repo_result "repository") "id"
      let c2 := GQLCall.createIssueM repository_id title body
      match env c2 with
      | .error e => (.error e, [c1, c2])
      | .ok result =>
        if !truthyOpt (pyGet result "createIssue") ||
            !truthyOpt (pyGet (jIndex result "createIssue") "issue") then
          (.error ⟨s!"Failed to create issue in {owner}/{repo}"⟩, [c1, c2])
        else
          (.ok (jIndex (jIndex result "createIssue") "issue"), [c1, c2])

/-- `add_issue_to_project` (lines 570-672): project-id resolution,
issue-id lookup, then the `addProjectV2ItemById` mutation. -/
def add_issue_to_project (env : Env) (owner : String) (number : Int)
    (issue_owner issue_repo : String) (issue_number : Int) :
    Except Err Json × List GQLCall :=
  match get_project_node_id env owner number with
  | (.error e, log) => (.error e, log)
  | (.ok project_id, log) =>
    let c2 := GQLCall.issueIdQ issue_owner issue_repo issue_number
    match env c2 with
    | .error e => (.error e, log ++ [c2])
    | .ok issue_result =>
      if !truthyOpt (pyGet issue_result "repository") ||
          !truthyOpt (pyGet (jIndex issue_result "repository") "issue") then
        (.error ⟨s!"Issue {issue_number} not found in {issue_owner}/{issue_repo}"⟩,
          log ++ [c2])
      else
        let issue_id := jIndex (jIndex (jIndex issue_result "repository") "issue") "id"
        let c3 := GQLCall.addItemM project_id issue_id
        match env c3 with
        | .error e => (.error e, log ++ [c2, c3])
        | .ok result =>
          if !truthyOpt (pyGet result "addProjectV2ItemById") ||
              !truthyOpt (pyGet (jIndex result "addProjectV2ItemById") "item") then
            (.error ⟨s!"Failed to add issue {issue_number} to project {number}"⟩,
              log ++ [c2, c3])
          else
            (.ok (jIndex (jIndex result "addProjectV2ItemById") "item"), log ++ [c2, c3])

/-- `add_draft_issue_to_project` (lines 674-726). -/
def add_draft_issue_to_project (env : Env) (owner : String) (number : Int)
    (title body : String) : Except Err Json × List GQLCall :=
  match get_project_node_id env owner number with
  | (.error e, log) => (.error e, log)
  | (.ok project_id, log) =>
    let c := GQLCall.addDraftM project_id title body
    match env c with
    | .error e => (.error e, log ++ [c])
    | .ok result =>
      if !truthyOpt (pyGet result "addProjectV2DraftIssue") ||
          !truthyOpt (pyGet (jIndex result "addProjectV2DraftIssue") "projectItem") then
        (.error ⟨s!"Failed to add draft issue to project {number}"⟩, log ++ [c])
      else
        (.ok (jIndex (jIndex result "addProjectV2DraftIssue") "projectItem"), log ++ [c])

/-- `update_project_item_field` (lines 728-839): project-id resolution,
then the prefix-based input inference, then the
`updateProjectV2ItemFieldValue` mutation. -/
def update_project_item_field (env : Env) (owner : String) (number : Int)
    (item_id field_id : String) (value : PyValue) :
    Except Err Json × List GQLCall :=
  match get_project_node_id env owner number with
  | (.error e, log) => (.error e, log)
  | (.ok project_id, log) =>
    match infer_field_value_input field_id value with
    | .error e => (.error e, log)
    | .ok field_value_input =>
      let c := GQLCall.updateFieldValueM project_id item_id field_id field_value_input
      match env c with
      | .error e => (.error e, log ++ [c])
      | .ok result =>
        if !truthyOpt (pyGet result "updateProjectV2ItemFieldValue") ||
            !truthyOpt (pyGet (jIndex result "updateProjectV2ItemFieldValue") "projectV2Item") then
          (.error ⟨s!"Failed to update field value for item {item_id}"⟩, log ++ [c])
        else
          (.ok (jIndex (jIndex result "updateProjectV2ItemFieldValue") "projectV2Item"),
            log ++ [c])

/-- `delete_project_item` (lines 841-887). -/
def delete_project_item (env : Env) (owner : String) (number : Int)
    (item_id : String) : Except Err Json × List GQLCall :=
  match get_project_node_id env owner number with
  | (.error e, log) => (.error e, log)
  | (.ok project_id, log) =>
    let c := GQLCall.deleteItemM project_id item_id
    match env c with
    | .error e => (.error e, log ++ [c])
    | .ok result =>
      if !truthyOpt (pyGet result "deleteProjectV2Item") ||
          !truthyOpt (pyGet (jIndex result "deleteProjectV2Item") "deletedItemId") then
        (.error ⟨s!"Failed to delete item {item_id}"⟩, log ++ [c])
      else
        (.ok (jIndex (jIndex result "deleteProjectV2Item") "deletedItemId"), log ++ [c])

/-- The input-parameter construction of `update_project_settings`
(lines 919-929): the project id plus each setting that was explicitly
supplied (non-None), with `description` sent as `shortDescription`. -/
def build_update_project_input (project_id : Json) (title description : Option String)
    (pub : Option Bool) : List (String × Json) :=
  let i0 := [("projectId", project_id)]
  let i1 := match title with
    | some t => i0 ++ [("title", Json.str t)]
    | none => i0
  let i2 := match description with
    | some d => i1 ++ [("shortDescription", Json.str d)]
    | none => i1
  match pub with
  | some b => i2 ++ [("public", Json.bool b)]
  | none => i2

/-- `update_project_settings` (lines 889-957). -/
def update_project_settings (env : Env) (owner : String) (number : Int)
    (title description : Option String) (pub : Option Bool) :
    Except Err Json × List GQLCall :=
  match get_project_node_id env owner number with
  | (.error e, log) => (.error e, log)
  | (.ok project_id, log) =>
    let input_params := build_update_project_input project_id title description pub
    let c := GQLCall.updateProjectM input_params
    match env c with
    | .error e => (.error e, log ++ [c])
    | .ok result =>
      if !truthyOpt (pyGet result "updateProjectV2") ||
          !truthyOpt (pyGet (jIndex result "updateProjectV2") "projectV2") then
        (.error ⟨s!"Failed to update project {number}"⟩, log ++ [c])
      else
        (.ok (jIndex (jIndex result "updateProjectV2") "projectV2"), log ++ [c])

@[simp] theorem truthyOpt_none : truthyOpt none = false := rfl

@[simp] theorem truthyOpt_some (v : Json) : truthyOpt (some v) = truthy v := rfl

theorem jIndex_of_pyGet {j : Json} {k : String} {v : Json}
    (h : pyGet j k = some v) : jIndex j k = v := by
  unfold pyGet at h
  unfold jIndex
  cases j <;> simp_all
  case obj fs =>
    cases hl : jLookup fs k with
    | none => rw [hl] at h; simp at h
    | some w => rw [hl] at h; cases w <;> simp_all

theorem truthy_of_hasKey {j : Json} {k : String} (h : hasKey j k = true) :
    truthy j = true := by
  cases j <;> simp [hasKey] at h
  case obj fs => cases fs <;> simp_all [truthy, jLookup]

theorem get_project_node_id_log (env : Env) (owner : String) (number : Int) :
    (get_project_node_id env owner number).2 = [GQLCall.projectIdQ owner number] := by
  unfold get_project_node_id
  cases h : env (GQLCall.projectIdQ owner number) <;> simp only [h]
  split
  · rfl
  · split <;> rfl

/-- C1: the mutation-input inference of `updateItemField` classifies
exactly by identifier prefix: single-select prefix requires a string
and yields `singleSelectOptionId`, else fails with InvalidInput;
iteration prefix requires a string and yields `iterationId`, else
fails; plain/text prefix yields the string coercion of the value and
never fails; date prefix requires a string and yields `date`, else
fails; numeric prefix requires an int-or-float value (Python
`isinstance`, so booleans included) and yields the value as a float,
else fails; an identifier matching no recognized prefix yields the
text coercion and never fails. -/
theorem C1_mutation_input_classification (fid : String) (v : PyValue) :
    (pyStartsWith fid "PVTSSF_" = true →
      (∀ s, v = PyValue.str s →
        infer_field_value_input fid v = .ok [("singleSelectOptionId", Json.str s)]) ∧
      (isStr v = false →
        infer_field_value_input fid v =
          .error ⟨s!"Invalid value type for single select field {fid}. Expected option ID string."⟩)) ∧
    (pyStartsWith fid "PVTIF_" = true →
      (∀ s, v = PyValue.str s →
        infer_field_value_input fid v = .ok [("iterationId", Json.str s)]) ∧
      (isStr v = false →
        infer_field_value_input fid v =
          .error ⟨s!"Invalid value type for iteration field {fid}. Expected iteration ID string."⟩)) ∧
    (pyStartsWith fid "PVTF_" = true →
      infer_field_value_input fid v = .ok [("text", Json.str (pyStr v))]) ∧
    (pyStartsWith fid "PVTDF_" = true →
      (∀ s, v = PyValue.str s →
        infer_field_value_input fid v = .ok [("date", Json.str s)]) ∧
      (isStr v = false →
        infer_field_value_input fid v =
          .error ⟨s!"Invalid value type for date field {fid}. Expected date string (YYYY-MM-DD)."⟩)) ∧
    (pyStartsWith fid "PVTNU_" = true →
      (isIntOrFloat v = true →
        infer_field_value_input fid v = .ok [("number", Json.num (pyFloat v))]) ∧
      (isIntOrFloat v = false →
        infer_field_value_input fid v =
          .error ⟨s!"Invalid value type for number field {fid}. Expected int or float."⟩)) ∧
    (pyStartsWith fid "PVTSSF_" = false → pyStartsWith fid "PVTIF_" = false →
      pyStartsWith fid "PVTF_" = false → pyStartsWith fid "PVTDF_" = false →
      pyStartsWith fid "PVTNU_" = false →
      infer_field_value_input fid v = .ok [("text", Json.str (pyStr v))]) := by
  refine ⟨?_, ?_, ?_, ?_, ?_, ?_⟩
  · intro hp
    constructor
    · intro s hs; subst hs; simp [infer_field_value_input, hp]
    · intro hns; cases v <;> simp_all [infer_field_value_input, hp, isStr]
  · intro hp
    have h1 : pyStartsWith fid "PVTSSF_" = false :=
      startsWith_excl ⟨by decide, by decide⟩ hp
    constructor
    · intro s hs; subst hs; simp [infer_field_value_input, hp, h1]
    · intro hns; cases v <;> simp_all [infer_field_value_input, hp, h1, isStr]
  · intro hp
    have h1 : pyStartsWith fid "PVTSSF_" = false :=
      startsWith_excl ⟨by decide, by decide⟩ hp
    have h2 : pyStartsWith fid "PVTIF_" = false :=
      startsWith_excl ⟨by decide, by decide⟩ hp
    cases v <;> simp [infer_field_value_input, hp, h1, h2, pyStr]
  · intro hp
    have h1 : pyStartsWith fid "PVTSSF_" = false :=
      startsWith_excl ⟨by decide, by decide⟩ hp
    have h2 : pyStartsWith fid "PVTIF_" = false :=
      startsWith_excl ⟨by decide, by decide⟩ hp
    have h3 : pyStartsWith fid "PVTF_" = false :=
      startsWith_excl ⟨by decide, by decide⟩ hp
    constructor
    · intro s hs; subst hs; simp [infer_field_value_input, hp, h1, h2, h3]
    · intro hns; cases v <;> simp_all [infer_field_value_input, hp, h1, h2, h3, isStr]
  · intro hp
    have h1 : pyStartsWith fid "PVTSSF_" = false :=
      startsWith_excl ⟨by decide, by decide⟩ hp
    have h2 : pyStartsWith fid "PVTIF_" = false :=
      startsWith_excl ⟨by decide, by decide⟩ hp
    have h3 : pyStartsWith fid "PVTF_" = false :=
      startsWith_excl ⟨by decide, by decide⟩ hp
    have h4 : pyStartsWith fid "PVTDF_" = false :=
      startsWith_excl ⟨by decide, by decide⟩ hp
    constructor
    · intro hn; simp [infer_field_value_input, hp, h1, h2, h3, h4, hn]
    · intro hn; simp [infer_field_value_input, hp, h1, h2, h3, h4, hn]
  · intro h1 h2 h3 h4 h5
    simp [infer_field_value_input, h1, h2, h3, h4, h5]

/-- Witness for C1 at concrete inputs: a single-select identifier with
a string value succeeds with `singleSelectOptionId`, and a numeric
identifier with a string value fails with the InvalidInput error. -/
theorem C1_witness :
    infer_field_value_input "PVTSSF_opt" (PyValue.str "OPT") =
      .ok [("singleSelectOptionId", Json.str "OPT")] ∧
    infer_field_value_input "PVTNU_n" (PyValue.str "x") =
      .error ⟨"Invalid value type for number field PVTNU_n. Expected int or float."⟩ := by
  constructor
  · exact ((C1_mutation_input_classification "PVTSSF_opt" (PyValue.str "OPT")).1
      (by decide)).1 "OPT" rfl
  · have h := ((C1_mutation_input_classification "PVTNU_n"
      (PyValue.str "x")).2.2.2.2.1 (by decide)).2 rfl
    simpa using h

/-- C10: for every identifier with the numeric prefix, a boolean value
passes the int-or-float test (Python `bool` is a subclass of `int`)
and is coerced to a float: `True` to `1.0`, `False` to `0.0`. -/
theorem C10_bool_accepted_as_number (fid : String) (b : Bool)
    (h : pyStartsWith fid "PVTNU_" = true) :
    infer_field_value_input fid (PyValue.bool b) =
      .ok [("number", Json.num (if b then 1 else 0))] := by
  have h1 : pyStartsWith fid "PVTSSF_" = false :=
    startsWith_excl ⟨by decide, by decide⟩ h
  have h2 : pyStartsWith fid "PVTIF_" = false :=
    startsWith_excl ⟨by decide, by decide⟩ h
  have h3 : pyStartsWith fid "PVTF_" = false :=
    startsWith_excl ⟨by decide, by decide⟩ h
  have h4 : pyStartsWith fid "PVTDF_" = false :=
    startsWith_excl ⟨by decide, by decide⟩ h
  simp [infer_field_value_input, h, h1, h2, h3, h4, isIntOrFloat, pyFloat]

/-- Witness for C10: `True` on a numeric-prefixed field becomes `1.0`,
`False` becomes `0.0`. -/
theorem C10_witness :
    infer_field_value_input "PVTNU_7" (PyValue.bool true) =
      .ok [("number", Json.num 1)] ∧
    infer_field_value_input "PVTNU_7" (PyValue.bool false) =
      .ok [("number", Json.num 0)] := by
  constructor
  · simpa using C10_bool_accepted_as_number "PVTNU_7" true (by decide)
  · simpa using C10_bool_accepted_as_number "PVTNU_7" false (by decide)

/-- C9: `execute_query` raises the single uniform error type `Err`
(`GitHubClientError`) in exactly three conditions — HTTP/transport
failure, a response carrying remote-reported operation errors, and a
nominally successful response whose data payload is missing or null —
and in every other case returns the parsed data payload.  The five
clauses cover all of `WireOutcome`, so failures occur in exactly these
conditions; by the type of `execute_query`, every failure is an `Err`. -/
theorem C9_execute_query_classification :
    (∀ status text, execute_query (.httpStatusError status text) =
      .error ⟨s!"HTTP error executing GraphQL query: {status} - {text}"⟩) ∧
    (∀ emsg, execute_query (.otherException emsg) =
      .error ⟨s!"Unexpected error executing GraphQL query: {emsg}"⟩) ∧
    (∀ body em, em = jRender (jIndex body "errors") → hasKey body "errors" = true →
      execute_query (.response body) =
        .error ⟨s!"Unexpected error executing GraphQL query: GraphQL query errors: {em}"⟩) ∧
    (∀ body, hasKey body "errors" = false → pyGet body "data" = none →
      execute_query (.response body) =
        .error ⟨"Unexpected error executing GraphQL query: GraphQL query returned no data and no errors."⟩) ∧
    (∀ body d, hasKey body "errors" = false → pyGet body "data" = some d →
      execute_query (.response body) = .ok d) := by
  refine ⟨fun _ _ => rfl, fun _ => rfl, ?_, ?_, ?_⟩
  · intro body em hem h
    subst hem
    simp [execute_query, h]
  · intro body h h2
    simp [execute_query, h, h2]
  · intro body d h h2
    simp [execute_query, h, h2]

/-- Witness for C9: an errors-bearing body fails, a data-less body
fails, a well-formed body returns its data payload. -/
theorem C9_witness :
    execute_query (.response (Json.obj [("errors", Json.arr [Json.str "boom"])])) =
      .error ⟨"Unexpected error executing GraphQL query: GraphQL query errors: [...]"⟩ ∧
    execute_query (.response (Json.obj [("data", Json.null)])) =
      .error ⟨"Unexpected error executing GraphQL query: GraphQL query returned no data and no errors."⟩ ∧
    execute_query (.response (Json.obj [("data", Json.obj [("x", Json.num 1)])])) =
      .ok (Json.obj [("x", Json.num 1)]) := by
  refine ⟨?_, ?_, ?_⟩
  · have h := C9_execute_query_classification.2.2.1
      (Json.obj [("errors", Json.arr [Json.str "boom"])]) "[...]" rfl rfl
    simpa using h
  · exact C9_execute_query_classification.2.2.2.1 _ rfl rfl
  · exact C9_execute_query_classification.2.2.2.2 _ _ rfl rfl

/-- C8: for every combination of optional settings,
`update_project_settings` builds a mutation input containing exactly
the project identifier plus the explicitly supplied (non-None)
settings — absent settings are omitted entirely (the key is not
present at all, so no nulls are sent), `description` travelling as
`shortDescription` — and, whenever project resolution succeeds, the
single mutation call issued carries exactly that input. -/
theorem C8_update_settings_input (project_id : Json)
    (title description : Option String) (pub : Option Bool) :
    jLookup (build_update_project_input project_id title description pub) "projectId" =
      some project_id ∧
    jLookup (build_update_project_input project_id title description pub) "title" =
      title.map Json.str ∧
    jLookup (build_update_project_input project_id title description pub) "shortDescription" =
      description.map Json.str ∧
    jLookup (build_update_project_input project_id title description pub) "public" =
      pub.map Json.bool ∧
    (∀ k v, (k, v) ∈ build_update_project_input project_id title description pub →
      (k = "projectId" ∧ v = project_id) ∨
      (∃ s, k = "title" ∧ title = some s ∧ v = Json.str s) ∨
      (∃ s, k = "shortDescription" ∧ description = some s ∧ v = Json.str s) ∨
      (∃ b, k = "public" ∧ pub = some b ∧ v = Json.bool b)) ∧
    (∀ env owner number log, get_project_node_id env owner number = (.ok project_id, log) →
      (update_project_settings env owner number title description pub).2 =
        log ++ [GQLCall.updateProjectM
          (build_update_project_input project_id title description pub)]) := by
  refine ⟨?_, ?_, ?_, ?_, ?_, ?_⟩
  · cases title <;> cases description <;> cases pub <;>
      simp [build_update_project_input, jLookup]
  · cases title <;> cases description <;> cases pub <;>
      simp [build_update_project_input, jLookup]
  · cases title <;> cases description <;> cases pub <;>
      simp [build_update_project_input, jLookup]
  · cases title <;> cases description <;> cases pub <;>
      simp [build_update_project_input, jLookup]
  · intro k v hin
    cases title <;> cases description <;> cases pub <;>
      simp [build_update_project_input] at hin <;> aesop
  · intro env owner number log h
    unfold update_project_settings
    rw [h]
    cases henv : env (GQLCall.updateProjectM
        (build_update_project_input project_id title description pub)) <;>
      simp only [henv]
    split <;> rfl

/-- Witness for C8: title supplied, description absent, public
supplied — the input holds exactly `projectId`, `title`, `public`, and
the issued mutation call carries it. -/
theorem C8_witness :
    jLookup (build_update_project_input (Json.str "PRJ") (some "T") none (some true))
      "shortDescription" = none ∧
    jLookup (build_update_project_input (Json.str "PRJ") (some "T") none (some true))
      "title" = some (Json.str "T") ∧
    (update_project_settings
      (fun c => match c with
        | GQLCall.projectIdQ _ _ => .ok (Json.obj [("organization",
            Json.obj [("projectV2", Json.obj [("id", Json.str "PRJ")])])])
        | _ => .error ⟨"unexpected"⟩)
      "acme" 1 (some "T") none (some true)).2 =
      [GQLCall.projectIdQ "acme" 1, GQLCall.updateProjectM
        (build_update_project_input (Json.str "PRJ") (some "T") none (some true))] := by
  refine ⟨?_, ?_, ?_⟩
  · exact (C8_update_settings_input (Json.str "PRJ") (some "T") none (some true)).2.2.1
  · exact (C8_update_settings_input (Json.str "PRJ") (some "T") none (some true)).2.1
  · exact (C8_update_settings_input (Json.str "PRJ") (some "T") none
      (some true)).2.2.2.2.2
      (fun c => match c with
        | GQLCall.projectIdQ _ _ => .ok (Json.obj [("organization",
            Json.obj [("projectV2", Json.obj [("id", Json.str "PRJ")])])])
        | _ => .error ⟨"unexpected"⟩)
      "acme" 1 [GQLCall.projectIdQ "acme" 1] rfl

/-- C3: owner-kind resolution — a non-null organization branch wins
(with the organization's id) regardless of the user branch, so when
both branches are non-null the organization is preferred by evaluation
order; a null/absent organization with a non-null user branch yields
the user kind and id; when neither branch is non-null, a
NotFound-style `GitHubClientError` is raised.  The `hasKey _ "id"`
hypotheses state response well-formedness: the lookup selects `id` on
both branches, so a non-null branch object carries it. -/
theorem C3_owner_kind_resolution (owner : String) (result : Json) :
    (∀ org, pyGet result "organization" = some org → hasKey org "id" = true →
      resolve_owner_kind owner result = .ok ("organization", jIndex org "id")) ∧
    (pyGet result "organization" = none →
      ∀ u, pyGet result "user" = some u → hasKey u "id" = true →
        resolve_owner_kind owner result = .ok ("user", jIndex u "id")) ∧
    (pyGet result "organization" = none → pyGet result "user" = none →
      resolve_owner_kind owner result =
        .error ⟨s!"Owner {owner} not found or type could not be determined."⟩) := by
  refine ⟨?_, ?_, ?_⟩
  · intro org horg hid
    have ht : truthy org = true := truthy_of_hasKey hid
    simp [resolve_owner_kind, horg, ht, jIndex_of_pyGet horg]
  · intro horg u hu hid
    have ht : truthy u = true := truthy_of_hasKey hid
    simp [resolve_owner_kind, horg, hu, ht, jIndex_of_pyGet hu]
  · intro horg hu
    simp [resolve_owner_kind, horg, hu]

/-- Witness for C3: both branches non-null — the organization branch
wins; and a response with both branches null fails NotFound. -/
theorem C3_witness :
    resolve_owner_kind "acme"
      (Json.obj [("organization", Json.obj [("id", Json.str "O1")]),
                 ("user", Json.obj [("id", Json.str "U1")])]) =
      .ok ("organization", Json.str "O1") ∧
    resolve_owner_kind "acme"
      (Json.obj [("organization", Json.null), ("user", Json.null)]) =
      .error ⟨"Owner acme not found or type could not be determined."⟩ := by
  constructor
  · have h := (C3_owner_kind_resolution "acme"
      (Json.obj [("organization", Json.obj [("id", Json.str "O1")]),
                 ("user", Json.obj [("id", Json.str "U1")])])).1
      (Json.obj [("id", Json.str "O1")]) rfl rfl
    simpa using h
  · have h := (C3_owner_kind_resolution "acme"
      (Json.obj [("organization", Json.null), ("user", Json.null)])).2.2 rfl rfl
    simpa using h

/-- C6: every project-scoped operation resolves the project identifier
first, and when that resolution fails the whole operation returns
exactly that failure, having issued only the single project-id lookup
call — no subsequent remote call, no partial result. -/
theorem C6_resolution_failure_aborts (env : Env) (owner : String) (number : Int)
    (e : Err) (log : List GQLCall)
    (h : get_project_node_id env owner number = (.error e, log)) :
    get_project_fields env owner number = (.error e, log) ∧
    (∀ limit, get_project_items env owner number limit = (.error e, log)) ∧
    (∀ io ir inum, add_issue_to_project env owner number io ir inum = (.error e, log)) ∧
    (∀ t b, add_draft_issue_to_project env owner number t b = (.error e, log)) ∧
    (∀ item fid v, update_project_item_field env owner number item fid v = (.error e, log)) ∧
    (∀ item, delete_project_item env owner number item = (.error e, log)) ∧
    (∀ t d p, update_project_settings env owner number t d p = (.error e, log)) ∧
    log = [GQLCall.projectIdQ owner number] := by
  refine ⟨?_, ?_, ?_, ?_, ?_, ?_, ?_, ?_⟩
  · unfold get_project_fields; rw [h]
  · intro limit; unfold get_project_items; rw [h]
  · intro io ir inum; unfold add_issue_to_project; rw [h]
  · intro t b; unfold add_draft_issue_to_project; rw [h]
  · intro item fid v; unfold update_project_item_field; rw [h]
  · intro item; unfold delete_project_item; rw [h]
  · intro t d p; unfold update_project_settings; rw [h]
  · have := get_project_node_id_log env owner number
    rw [h] at this
    exact this

/-- Witness for C6: a transport that fails the project-id lookup makes
`get_project_fields` (and `delete_project_item`) return that very
error after the single lookup call. -/
theorem C6_witness :
    get_project_fields (fun _ => .error ⟨"boom"⟩) "acme" 1 =
      (.error ⟨"boom"⟩, [GQLCall.projectIdQ "acme" 1]) ∧
    delete_project_item (fun _ => .error ⟨"boom"⟩) "acme" 1 "ITEM" =
      (.error ⟨"boom"⟩, [GQLCall.projectIdQ "acme" 1]) := by
  constructor
  · exact (C6_resolution_failure_aborts (fun _ => .error ⟨"boom"⟩) "acme" 1
      ⟨"boom"⟩ [GQLCall.projectIdQ "acme" 1] rfl).1
  · exact (C6_resolution_failure_aborts (fun _ => .error ⟨"boom"⟩) "acme" 1
      ⟨"boom"⟩ [GQLCall.projectIdQ "acme" 1] rfl).2.2.2.2.2.1 "ITEM"

/-- C2 (amended): for a recognized prefix with a wrongly typed value,
`update_project_item_field` fails with the InvalidInput error produced
by the inference step and dispatches no mutation call — but the
project-id resolution transport call has already been made, so the
call log is exactly the single project-id lookup, not empty. -/
theorem C2_invalid_input_no_mutation_call (env : Env) (owner : String)
    (number : Int) (item_id field_id : String) (v : PyValue)
    (hw : (pyStartsWith field_id "PVTSSF_" = true ∧ isStr v = false) ∨
          (pyStartsWith field_id "PVTIF_" = true ∧ isStr v = false) ∨
          (pyStartsWith field_id "PVTDF_" = true ∧ isStr v = false) ∨
          (pyStartsWith field_id "PVTNU_" = true ∧ isIntOrFloat v = false)) :
    (update_project_item_field env owner number item_id field_id v).2 =
      [GQLCall.projectIdQ owner number] ∧
    ∃ e, infer_field_value_input field_id v = .error e ∧
      ∀ pid log, get_project_node_id env owner number = (.ok pid, log) →
        update_project_item_field env owner number item_id field_id v =
          (.error e, log) := by
  have hinf : ∃ e, infer_field_value_input field_id v = .error e := by
    rcases hw with ⟨hp, hv⟩ | ⟨hp, hv⟩ | ⟨hp, hv⟩ | ⟨hp, hv⟩
    · refine ⟨⟨s!"Invalid value type for single select field {field_id}. Expected option ID string."⟩, ?_⟩
      cases v <;> simp_all [infer_field_value_input, isStr]
    · have h1 : pyStartsWith field_id "PVTSSF_" = false :=
        startsWith_excl ⟨by decide, by decide⟩ hp
      refine ⟨⟨s!"Invalid value type for iteration field {field_id}. Expected iteration ID string."⟩, ?_⟩
      cases v <;> simp_all [infer_field_value_input, isStr]
    · have h1 : pyStartsWith field_id "PVTSSF_" = false :=
        startsWith_excl ⟨by decide, by decide⟩ hp
      have h2 : pyStartsWith field_id "PVTIF_" = false :=
        startsWith_excl ⟨by decide, by decide⟩ hp
      have h3 : pyStartsWith field_id "PVTF_" = false :=
        startsWith_excl ⟨by decide, by decide⟩ hp
      refine ⟨⟨s!"Invalid value type for date field {field_id}. Expected date string (YYYY-MM-DD)."⟩, ?_⟩
      cases v <;> simp_all [infer_field_value_input, isStr]
    · have h1 : pyStartsWith field_id "PVTSSF_" = false :=
        startsWith_excl ⟨by decide, by decide⟩ hp
      have h2 : pyStartsWith field_id "PVTIF_" = false :=
        startsWith_excl ⟨by decide, by decide⟩ hp
      have h3 : pyStartsWith field_id "PVTF_" = false :=
        startsWith_excl ⟨by decide, by decide⟩ hp
      have h4 : pyStartsWith field_id "PVTDF_" = false :=
        startsWith_excl ⟨by decide, by decide⟩ hp
      refine ⟨⟨s!"Invalid value type for number field {field_id}. Expected int or float."⟩, ?_⟩
      simp [infer_field_value_input, hp, h1, h2, h3, h4, hv]
  obtain ⟨e, he⟩ := hinf
  constructor
  · unfold update_project_item_field
    rcases hres : get_project_node_id env owner number with ⟨r, log⟩
    have hlog : log = [GQLCall.projectIdQ owner number] := by
      have := get_project_node_id_log env owner number
      rw [hres] at this
      exact this
    cases r with
    | error e2 => simp [hres, hlog]
    | ok pid => simp [hres, he, hlog]
  · refine ⟨e, he, ?_⟩
    intro pid log hres
    unfold update_project_item_field
    rw [hres, he]

/-- Counterexample to C2 as stated: with a transport that resolves the
project id, a numeric-prefixed field with a string value does fail with
InvalidInput, but one transport invocation (the project-id lookup) has
already occurred on that execution path — not zero. -/
theorem C2_counterexample :
    (update_project_item_field
      (fun c => match c with
        | GQLCall.projectIdQ _ _ => .ok (Json.obj [("organization",
            Json.obj [("projectV2", Json.obj [("id", Json.str "PRJ")])])])
        | _ => .error ⟨"unexpected"⟩)
      "acme" 1 "ITEM" "PVTNU_1" (PyValue.str "not-a-number")).1 =
      .error ⟨"Invalid value type for number field PVTNU_1. Expected int or float."⟩ ∧
    (update_project_item_field
      (fun c => match c with
        | GQLCall.projectIdQ _ _ => .ok (Json.obj [("organization",
            Json.obj [("projectV2", Json.obj [("id", Json.str "PRJ")])])])
        | _ => .error ⟨"unexpected"⟩)
      "acme" 1 "ITEM" "PVTNU_1" (PyValue.str "not-a-number")).2 =
      [GQLCall.projectIdQ "acme" 1] ∧
    [GQLCall.projectIdQ "acme" 1] ≠ ([] : List GQLCall) := by
  refine ⟨rfl, rfl, by simp⟩

/-- Witness for the amended C2: a date-prefixed field with an integer
value — the log is exactly the project-id lookup and the result is the
inference failure. -/
theorem C2_witness :
    (update_project_item_field
      (fun c => match c with
        | GQLCall.projectIdQ _ _ => .ok (Json.obj [("organization",
            Json.obj [("projectV2", Json.obj [("id", Json.str "PRJ")])])])
        | _ => .error ⟨"unexpected"⟩)
      "acme" 1 "ITEM" "PVTDF_2" (PyValue.int 5)).2 =
      [GQLCall.projectIdQ "acme" 1] := by
  exact (C2_invalid_input_no_mutation_call
    (fun c => match c with
      | GQLCall.projectIdQ _ _ => .ok (Json.obj [("organization",
          Json.obj [("projectV2", Json.obj [("id", Json.str "PRJ")])])])
      | _ => .error ⟨"unexpected"⟩)
    "acme" 1 "ITEM" "PVTDF_2" (PyValue.int 5)
    (Or.inr (Or.inr (Or.inl ⟨by decide, rfl⟩)))).1

theorem truthy_of_pyGet_some {j : Json} {k : String} {v : Json}
    (h : pyGet j k = some v) : truthy j = true := by
  cases j <;> simp [pyGet] at h
  case obj fs => cases fs <;> simp_all [truthy, jLookup]

/-- C5: `get_projects` first issues the owner-kind lookup (it is always
the first transport call); once the owner kind is resolved it
dispatches to the organization- or user-scoped fetch whose page size is
the fixed 50, so the log is exactly the two calls; a response with the
scoped `projectsV2` collection absent (missing or null at either level)
yields a NotFound-style error, while a present (truthy) collection
yields its `nodes` value — in particular an empty `nodes` list is
returned as an empty sequence, not an error.  When neither owner
branch resolves, the operation fails after the single lookup. -/
theorem C5_list_projects_dispatch (env : Env) (owner : String) :
    ((get_projects env owner).2.head? = some (GQLCall.ownerType owner)) ∧
    (∀ result org, env (GQLCall.ownerType owner) = .ok result →
      pyGet result "organization" = some org → hasKey org "id" = true →
      ((get_projects env owner).2 =
        [GQLCall.ownerType owner, GQLCall.orgProjects owner 50] ∧
       ∀ r2, env (GQLCall.orgProjects owner 50) = .ok r2 →
         ((pyGet r2 "organization" = none →
            (get_projects env owner).1 =
              .error ⟨s!"Could not retrieve projects for organization {owner}"⟩) ∧
          (∀ o2, pyGet r2 "organization" = some o2 → pyGet o2 "projectsV2" = none →
            (get_projects env owner).1 =
              .error ⟨s!"Could not retrieve projects for organization {owner}"⟩) ∧
          (∀ o2 pv, pyGet r2 "organization" = some o2 → pyGet o2 "projectsV2" = some pv →
            truthy pv = true →
            (get_projects env owner).1 = .ok (jIndex pv "nodes"))))) ∧
    (∀ result u, env (GQLCall.ownerType owner) = .ok result →
      pyGet result "organization" = none →
      pyGet result "user" = some u → hasKey u "id" = true →
      ((get_projects env owner).2 =
        [GQLCall.ownerType owner, GQLCall.userProjects owner 50] ∧
       ∀ r2, env (GQLCall.userProjects owner 50) = .ok r2 →
         ((pyGet r2 "user" = none →
            (get_projects env owner).1 =
              .error ⟨s!"Could not retrieve projects for user {owner}"⟩) ∧
          (∀ u2, pyGet r2 "user" = some u2 → pyGet u2 "projectsV2" = none →
            (get_projects env owner).1 =
              .error ⟨s!"Could not retrieve projects for user {owner}"⟩) ∧
          (∀ u2 pv, pyGet r2 "user" = some u2 → pyGet u2 "projectsV2" = some pv →
            truthy pv = true →
            (get_projects env owner).1 = .ok (jIndex pv "nodes"))))) ∧
    (∀ result, env (GQLCall.ownerType owner) = .ok result →
      pyGet result "organization" = none → pyGet result "user" = none →
      get_projects env owner =
        (.error ⟨s!"Owner {owner} not found or type could not be determined."⟩,
         [GQLCall.ownerType owner])) := by
  refine ⟨?_, ?_, ?_, ?_⟩
  · simp only [get_projects]
    repeat' split
    all_goals rfl
  · intro result org h1 horg hid
    have ht : truthy org = true := truthy_of_hasKey hid
    have hres : resolve_owner_kind owner result =
        .ok ("organization", jIndex org "id") := by
      simp [resolve_owner_kind, horg, ht, jIndex_of_pyGet horg]
    constructor
    · cases h2x : env (GQLCall.orgProjects owner 50) with
      | error e =>
        simp only [get_projects, h1, hres]
        rw [if_pos trivial]
        simp [h2x]
      | ok r2 =>
        simp only [get_projects, h1, hres]
        rw [if_pos trivial]
        simp only [h2x]
        split <;> rfl
    · intro r2 h2
      refine ⟨?_, ?_, ?_⟩
      · intro habs
        simp only [get_projects, h1, hres]
        rw [if_pos trivial]
        simp [h2, habs]
      · intro o2 ho2 hpv
        have hj : jIndex r2 "organization" = o2 := jIndex_of_pyGet ho2
        simp only [get_projects, h1, hres]
        rw [if_pos trivial]
        simp [h2, ho2, hj, hpv]
      · intro o2 pv ho2 hpv htr
        have hj : jIndex r2 "organization" = o2 := jIndex_of_pyGet ho2
        have hj2 : jIndex o2 "projectsV2" = pv := jIndex_of_pyGet hpv
        have hto2 : truthy o2 = true := truthy_of_pyGet_some hpv
        simp only [get_projects, h1, hres]
        rw [if_pos trivial]
        simp [h2, ho2, hj, hj2, hpv, hto2, htr]
  · intro result u h1 horg husr hid
    have ht : truthy u = true := truthy_of_hasKey hid
    have hres : resolve_owner_kind owner result = .ok ("user", jIndex u "id") := by
      simp [resolve_owner_kind, horg, husr, ht, jIndex_of_pyGet husr]
    constructor
    · cases h2x : env (GQLCall.userProjects owner 50) with
      | error e =>
        simp only [get_projects, h1, hres]
        rw [if_pos trivial]
        simp [h2x]
      | ok r2 =>
        simp only [get_projects, h1, hres]
        rw [if_pos trivial]
        simp only [h2x]
        split
        next hcontra => exact absurd hcontra (by decide)
        next => split <;> rfl
    · intro r2 h2
      refine ⟨?_, ?_, ?_⟩
      · intro habs
        simp only [get_projects, h1, hres]
        rw [if_pos trivial]
        simp [h2, habs]
      · intro u2 hu2 hpv
        have hj : jIndex r2 "user" = u2 := jIndex_of_pyGet hu2
        simp only [get_projects, h1, hres]
        rw [if_pos trivial]
        simp [h2, hu2, hj, hpv]
      · intro u2 pv hu2 hpv htr
        have hj : jIndex r2 "user" = u2 := jIndex_of_pyGet hu2
        have hj2 : jIndex u2 "projectsV2" = pv := jIndex_of_pyGet hpv
        have htu2 : truthy u2 = true := truthy_of_pyGet_some hpv
        simp only [get_projects, h1, hres]
        rw [if_pos trivial]
        simp [h2, hu2, hj, hj2, hpv, htu2, htr]
  · intro result h1 horg husr
    have hres : resolve_owner_kind owner result =
        .error ⟨s!"Owner {owner} not found or type could not be determined."⟩ := by
      simp [resolve_owner_kind, horg, husr]
    simp [get_projects, h1, hres]

/-- Witness for C5: owner resolves as a user, the user-scoped fetch
returns a present-but-empty projects page — the result is the empty
sequence (not an error) and the log is exactly the owner-kind lookup
followed by the page-size-50 user fetch. -/
theorem C5_witness :
    (get_projects
      (fun c => match c with
        | GQLCall.ownerType _ => .ok (Json.obj [("organization", Json.null),
            ("user", Json.obj [("id", Json.str "U1")])])
        | GQLCall.userProjects _ _ => .ok (Json.obj [("user",
            Json.obj [("projectsV2", Json.obj [("nodes", Json.arr [])])])])
        | _ => .error ⟨"unexpected"⟩)
      "acme").1 = .ok (Json.arr []) ∧
    (get_projects
      (fun c => match c with
        | GQLCall.ownerType _ => .ok (Json.obj [("organization", Json.null),
            ("user", Json.obj [("id", Json.str "U1")])])
        | GQLCall.userProjects _ _ => .ok (Json.obj [("user",
            Json.obj [("projectsV2", Json.obj [("nodes", Json.arr [])])])])
        | _ => .error ⟨"unexpected"⟩)
      "acme").2 = [GQLCall.ownerType "acme", GQLCall.userProjects "acme" 50] := by
  constructor
  · exact ((((C5_list_projects_dispatch
      (fun c => match c with
        | GQLCall.ownerType _ => .ok (Json.obj [("organization", Json.null),
            ("user", Json.obj [("id", Json.str "U1")])])
        | GQLCall.userProjects _ _ => .ok (Json.obj [("user",
            Json.obj [("projectsV2", Json.obj [("nodes", Json.arr [])])])])
        | _ => .error ⟨"unexpected"⟩)
      "acme").2.2.1
      (Json.obj [("organization", Json.null), ("user", Json.obj [("id", Json.str "U1")])])
      (Json.obj [("id", Json.str "U1")]) rfl rfl rfl rfl).2
      (Json.obj [("user", Json.obj [("projectsV2", Json.obj [("nodes", Json.arr [])])])])
      rfl).2.2
      (Json.obj [("projectsV2", Json.obj [("nodes", Json.arr [])])])
      (Json.obj [("nodes", Json.arr [])]) rfl rfl rfl)
  · exact (((C5_list_projects_dispatch
      (fun c => match c with
        | GQLCall.ownerType _ => .ok (Json.obj [("organization", Json.null),
            ("user", Json.obj [("id", Json.str "U1")])])
        | GQLCall.userProjects _ _ => .ok (Json.obj [("user",
            Json.obj [("projectsV2", Json.obj [("nodes", Json.arr [])])])])
        | _ => .error ⟨"unexpected"⟩)
      "acme").2.2.1
      (Json.obj [("organization", Json.null), ("user", Json.obj [("id", Json.str "U1")])])
      (Json.obj [("id", Json.str "U1")]) rfl rfl rfl rfl).1)

/-- C7: for each mutation operation, when the mutation transport call
succeeds but the expected nested success payload is missing or null at
either level, the operation fails with its MutationFailed-style
`GitHubClientError`; when the nested payload is present (truthy, as
every real payload object or id string is), the operation returns that
nested result.  Each section's leading hypotheses pin down the
identity-resolution steps that precede the single mutation call. -/
theorem C7_mutation_payload_assertions :
    (∀ env o r t b rr rv resp, env (GQLCall.repositoryIdQ o r) = .ok rr →
      pyGet rr "repository" = some rv → truthy rv = true →
      env (GQLCall.createIssueM (jIndex rv "id") t b) = .ok resp →
      ((pyGet resp "createIssue" = none →
         (create_issue env o r t b).1 = .error ⟨s!"Failed to create issue in {o}/{r}"⟩) ∧
       (∀ ci, pyGet resp "createIssue" = some ci → truthy ci = true →
         ((pyGet ci "issue" = none →
            (create_issue env o r t b).1 =
              .error ⟨s!"Failed to create issue in {o}/{r}"⟩) ∧
          (∀ iss, pyGet ci "issue" = some iss → truthy iss = true →
            (create_issue env o r t b).1 = .ok iss))))) ∧
    (∀ env o n io ir inum pid log ir2 repoV issV resp,
      get_project_node_id env o n = (.ok pid, log) →
      env (GQLCall.issueIdQ io ir inum) = .ok ir2 →
      pyGet ir2 "repository" = some repoV → truthy repoV = true →
      pyGet repoV "issue" = some issV → truthy issV = true →
      env (GQLCall.addItemM pid (jIndex issV "id")) = .ok resp →
      ((pyGet resp "addProjectV2ItemById" = none →
         (add_issue_to_project env o n io ir inum).1 =
           .error ⟨s!"Failed to add issue {inum} to project {n}"⟩) ∧
       (∀ ai, pyGet resp "addProjectV2ItemById" = some ai → truthy ai = true →
         ((pyGet ai "item" = none →
            (add_issue_to_project env o n io ir inum).1 =
              .error ⟨s!"Failed to add issue {inum} to project {n}"⟩) ∧
          (∀ it, pyGet ai "item" = some it → truthy it = true →
            (add_issue_to_project env o n io ir inum).1 = .ok it))))) ∧
    (∀ env o n t b pid log resp,
      get_project_node_id env o n = (.ok pid, log) →
      env (GQLCall.addDraftM pid t b) = .ok resp →
      ((pyGet resp "addProjectV2DraftIssue" = none →
         (add_draft_issue_to_project env o n t b).1 =
           .error ⟨s!"Failed to add draft issue to project {n}"⟩) ∧
       (∀ ad, pyGet resp "addProjectV2DraftIssue" = some ad → truthy ad = true →
         ((pyGet ad "projectItem" = none →
            (add_draft_issue_to_project env o n t b).1 =
              .error ⟨s!"Failed to add draft issue to project {n}"⟩) ∧
          (∀ pi2, pyGet ad "projectItem" = some pi2 → truthy pi2 = true →
            (add_draft_issue_to_project env o n t b).1 = .ok pi2))))) ∧
    (∀ env o n item fid v input pid log resp,
      get_project_node_id env o n = (.ok pid, log) →
      infer_field_value_input fid v = .ok input →
      env (GQLCall.updateFieldValueM pid item fid input) = .ok resp →
      ((pyGet resp "updateProjectV2ItemFieldValue" = none →
         (update_project_item_field env o n item fid v).1 =
           .error ⟨s!"Failed to update field value for item {item}"⟩) ∧
       (∀ uf, pyGet resp "updateProjectV2ItemFieldValue" = some uf → truthy uf = true →
         ((pyGet uf "projectV2Item" = none →
            (update_project_item_field env o n item fid v).1 =
              .error ⟨s!"Failed to update field value for item {item}"⟩) ∧
          (∀ pv2, pyGet uf "projectV2Item" = some pv2 → truthy pv2 = true →
            (update_project_item_field env o n item fid v).1 = .ok pv2))))) ∧
    (∀ env o n item pid log resp,
      get_project_node_id env o n = (.ok pid, log) →
      env (GQLCall.deleteItemM pid item) = .ok resp →
      ((pyGet resp "deleteProjectV2Item" = none →
         (delete_project_item env o n item).1 =
           .error ⟨s!"Failed to delete item {item}"⟩) ∧
       (∀ dp, pyGet resp "deleteProjectV2Item" = some dp → truthy dp = true →
         ((pyGet dp "deletedItemId" = none →
            (delete_project_item env o n item).1 =
              .error ⟨s!"Failed to delete item {item}"⟩) ∧
          (∀ did, pyGet dp "deletedItemId" = some did → truthy did = true →
            (delete_project_item env o n item).1 = .ok did))))) ∧
    (∀ env o n t d p pid log resp,
      get_project_node_id env o n = (.ok pid, log) →
      env (GQLCall.updateProjectM (build_update_project_input pid t d p)) = .ok resp →
      ((pyGet resp "updateProjectV2" = none →
         (update_project_settings env o n t d p).1 =
           .error ⟨s!"Failed to update project {n}"⟩) ∧
       (∀ up, pyGet resp "updateProjectV2" = some up → truthy up = true →
         ((pyGet up "projectV2" = none →
            (update_project_settings env o n t d p).1 =
              .error ⟨s!"Failed to update project {n}"⟩) ∧
          (∀ pj, pyGet up "projectV2" = some pj → truthy pj = true →
            (update_project_settings env o n t d p).1 = .ok pj))))) := by
  refine ⟨?_, ?_, ?_, ?_, ?_, ?_⟩
  · intro env o r t b rr rv resp h1 hrv htv h2
    have hjv : jIndex rr "repository" = rv := jIndex_of_pyGet hrv
    refine ⟨?_, ?_⟩
    · intro habs
      simp only [create_issue, h1]
      simp [hrv, htv, hjv, h2, habs]
    · intro ci hci htc
      have hjc : jIndex resp "createIssue" = ci := jIndex_of_pyGet hci
      refine ⟨?_, ?_⟩
      · intro habs
        simp only [create_issue, h1]
        simp [hrv, htv, hjv, h2, hci, hjc, htc, habs]
      · intro iss hiss hti
        have hji : jIndex ci "issue" = iss := jIndex_of_pyGet hiss
        simp only [create_issue, h1]
        simp [hrv, htv, hjv, h2, hci, hjc, htc, hiss, hji, hti]
  · intro env o n io ir inum pid log ir2 repoV issV resp h1 h2 hrp htr hiss hti h3
    have hjr : jIndex ir2 "repository" = repoV := jIndex_of_pyGet hrp
    have hji : jIndex repoV "issue" = issV := jIndex_of_pyGet hiss
    refine ⟨?_, ?_⟩
    · intro habs
      simp only [add_issue_to_project, h1]
      simp [h2, hrp, htr, hjr, hiss, hji, hti, h3, habs]
    · intro ai hai hta
      have hja : jIndex resp "addProjectV2ItemById" = ai := jIndex_of_pyGet hai
      refine ⟨?_, ?_⟩
      · intro habs
        simp only [add_issue_to_project, h1]
        simp [h2, hrp, htr, hjr, hiss, hji, hti, h3, hai, hja, hta, habs]
      · intro it hit htit
        have hjit : jIndex ai "item" = it := jIndex_of_pyGet hit
        simp only [add_issue_to_project, h1]
        simp [h2, hrp, htr, hjr, hiss, hji, hti, h3, hai, hja, hta, hit, hjit, htit]
  · intro env o n t b pid log resp h1 h2
    refine ⟨?_, ?_⟩
    · intro habs
      simp only [add_draft_issue_to_project, h1]
      simp [h2, habs]
    · intro ad had hta
      have hja : jIndex resp "addProjectV2DraftIssue" = ad := jIndex_of_pyGet had
      refine ⟨?_, ?_⟩
      · intro habs
        simp only [add_draft_issue_to_project, h1]
        simp [h2, had, hja, hta, habs]
      · intro pi2 hpi htp
        have hjp : jIndex ad "projectItem" = pi2 := jIndex_of_pyGet hpi
        simp only [add_draft_issue_to_project, h1]
        simp [h2, had, hja, hta, hpi, hjp, htp]
  · intro env o n item fid v input pid log resp h1 hinf h2
    refine ⟨?_, ?_⟩
    · intro habs
      simp only [update_project_item_field, h1, hinf]
      simp [h2, habs]
    · intro uf huf htu
      have hju : jIndex resp "updateProjectV2ItemFieldValue" = uf := jIndex_of_pyGet huf
      refine ⟨?_, ?_⟩
      · intro habs
        simp only [update_project_item_field, h1, hinf]
        simp [h2, huf, hju, htu, habs]
      · intro pv2 hpv htp
        have hjp : jIndex uf "projectV2Item" = pv2 := jIndex_of_pyGet hpv
        simp only [update_project_item_field, h1, hinf]
        simp [h2, huf, hju, htu, hpv, hjp, htp]
  · intro env o n item pid log resp h1 h2
    refine ⟨?_, ?_⟩
    · intro habs
      simp only [delete_project_item, h1]
      simp [h2, habs]
    · intro dp hdp htd
      have hjd : jIndex resp "deleteProjectV2Item" = dp := jIndex_of_pyGet hdp
      refine ⟨?_, ?_⟩
      · intro habs
        simp only [delete_project_item, h1]
        simp [h2, hdp, hjd, htd, habs]
      · intro did hdid htdi
        have hjdi : jIndex dp "deletedItemId" = did := jIndex_of_pyGet hdid
        simp only [delete_project_item, h1]
        simp [h2, hdp, hjd, htd, hdid, hjdi, htdi]
  · intro env o n t d p pid log resp h1 h2
    refine ⟨?_, ?_⟩
    · intro habs
      simp only [update_project_settings, h1]
      simp [h2, habs]
    · intro up hup htu
      have hju : jIndex resp "updateProjectV2" = up := jIndex_of_pyGet hup
      refine ⟨?_, ?_⟩
      · intro habs
        simp only [update_project_settings, h1]
        simp [h2, hup, hju, htu, habs]
      · intro pj hpj htp
        have hjp : jIndex up "projectV2" = pj := jIndex_of_pyGet hpj
        simp only [update_project_settings, h1]
        simp [h2, hup, hju, htu, hpj, hjp, htp]

/-- Witness for C7 (delete section): a present nested payload returns
the deleted item id; a null nested payload fails with the
MutationFailed-style error. -/
theorem C7_witness :
    (delete_project_item
      (fun c => match c with
        | GQLCall.projectIdQ _ _ => .ok (Json.obj [("organization",
            Json.obj [("projectV2", Json.obj [("id", Json.str "PRJ")])])])
        | GQLCall.deleteItemM _ _ => .ok (Json.obj [("deleteProjectV2Item",
            Json.obj [("deletedItemId", Json.str "D1")])])
        | _ => .error ⟨"unexpected"⟩)
      "acme" 1 "ITEM").1 = .ok (Json.str "D1") ∧
    (delete_project_item
      (fun c => match c with
        | GQLCall.projectIdQ _ _ => .ok (Json.obj [("organization",
            Json.obj [("projectV2", Json.obj [("id", Json.str "PRJ")])])])
        | GQLCall.deleteItemM _ _ => .ok (Json.obj [("deleteProjectV2Item", Json.null)])
        | _ => .error ⟨"unexpected"⟩)
      "acme" 1 "ITEM").1 = .error ⟨"Failed to delete item ITEM"⟩ := by
  constructor
  · exact ((C7_mutation_payload_assertions.2.2.2.2.1
      (fun c => match c with
        | GQLCall.projectIdQ _ _ => .ok (Json.obj [("organization",
            Json.obj [("projectV2", Json.obj [("id", Json.str "PRJ")])])])
        | GQLCall.deleteItemM _ _ => .ok (Json.obj [("deleteProjectV2Item",
            Json.obj [("deletedItemId", Json.str "D1")])])
        | _ => .error ⟨"unexpected"⟩)
      "acme" 1 "ITEM" (Json.str "PRJ") [GQLCall.projectIdQ "acme" 1]
      (Json.obj [("deleteProjectV2Item", Json.obj [("deletedItemId", Json.str "D1")])])
      rfl rfl).2
      (Json.obj [("deletedItemId", Json.str "D1")]) rfl rfl).2
      (Json.str "D1") rfl rfl
  · have h := (C7_mutation_payload_assertions.2.2.2.2.1
      (fun c => match c with
        | GQLCall.projectIdQ _ _ => .ok (Json.obj [("organization",
            Json.obj [("projectV2", Json.obj [("id", Json.str "PRJ")])])])
        | GQLCall.deleteItemM _ _ => .ok (Json.obj [("deleteProjectV2Item", Json.null)])
        | _ => .error ⟨"unexpected"⟩)
      "acme" 1 "ITEM" (Json.str "PRJ") [GQLCall.projectIdQ "acme" 1]
      (Json.obj [("deleteProjectV2Item", Json.null)])
      rfl rfl).1 rfl
    simpa using h

theorem jLookup_jSetKey (d : List (String × Json)) (k : String) (v : Json) (q : String) :
    jLookup (jSetKey d k v) q = if q = k then some v else jLookup d q := by
  induction d with
  | nil =>
    simp only [jSetKey, jLookup]
    by_cases h : k = q
    · simp [h]
    · have h' : ¬ q = k := fun hh => h hh.symm
      simp [h, h']
  | cons hd tl ih =>
    obtain ⟨k1, v1⟩ := hd
    simp only [jSetKey]
    by_cases h1 : k1 = k
    · subst h1
      simp only [if_pos rfl, jLookup]
      by_cases h2 : k1 = q
      · subst h2; simp
      · have h2' : ¬ q = k1 := fun hh => h2 hh.symm
        simp [h2, h2']
    · simp only [if_neg h1, jLookup, ih]
      split_ifs <;> simp_all

theorem process_field_values_append (nodes : List Json) (fv : Json) :
    process_field_values (nodes ++ [fv]) =
      jSetKey (process_field_values nodes) (fieldNameOf fv) (scalarOf fv) := by
  simp [process_field_values, List.foldl_append]

theorem process_field_values_lookup (nodes : List Json) (k : String) :
    jLookup (process_field_values nodes) k =
      ((nodes.filter (fun fv => fieldNameOf fv == k)).getLast?).map scalarOf := by
  induction nodes using List.reverseRecOn with
  | nil => simp [process_field_values, jLookup]
  | append_singleton l fv ih =>
    rw [process_field_values_append, jLookup_jSetKey]
    by_cases h : k = fieldNameOf fv
    · subst h
      simp [List.filter_append, List.getLast?_concat]
    · have hne : (fieldNameOf fv == k) = false := by
        simp [Ne.symm h]
      simp [h, hne, List.filter_append, ih]

/-- C4 (amended): `get_project_items` maps each returned item through
the per-item normalization; for an item whose field-value list is
present and non-empty, the list is replaced by the name-to-scalar
mapping (keys are field names, last value wins on repeats); each raw
record's scalar is selected by its own discriminator (Text → text,
Date → date, SingleSelect → display name, Number → number, Iteration →
"title (Start: startDate)", anything else → "N/A"), and a missing
field name is replaced by "UnknownField".  Amendment: an item whose
field-value list is absent or empty is returned unchanged — its raw
structure is not replaced by the (empty) mapping. -/
theorem C4_field_value_normalization :
    (∀ env o n limit pid log resp node itemsv items2,
      get_project_node_id env o n = (.ok pid, log) →
      env (GQLCall.projectItemsQ pid limit) = .ok resp →
      pyGet resp "node" = some node → truthy node = true →
      pyGet node "items" = some itemsv → truthy itemsv = true →
      jIndex itemsv "nodes" = Json.arr items2 →
      (get_project_items env o n limit).1 =
        .ok (Json.arr (items2.map process_item))) ∧
    (∀ item fvj nodesL, pyGet item "fieldValues" = some fvj → truthy fvj = true →
      pyGet fvj "nodes" = some (Json.arr nodesL) → nodesL ≠ [] →
      process_item item =
        jSet item "fieldValues" (Json.obj (process_field_values nodesL))) ∧
    (∀ item fvj, pyGet item "fieldValues" = some fvj →
      pyGet fvj "nodes" = some (Json.arr []) → process_item item = item) ∧
    (∀ item, pyGet item "fieldValues" = none → process_item item = item) ∧
    (∀ fv, jGetD fv "__typename" Json.null = Json.str "ProjectV2ItemFieldTextValue" →
      scalarOf fv = jGetD fv "text" (Json.str "N/A")) ∧
    (∀ fv, jGetD fv "__typename" Json.null = Json.str "ProjectV2ItemFieldDateValue" →
      scalarOf fv = jGetD fv "date" (Json.str "N/A")) ∧
    (∀ fv, jGetD fv "__typename" Json.null =
        Json.str "ProjectV2ItemFieldSingleSelectValue" →
      scalarOf fv = jGetD fv "name" (Json.str "N/A")) ∧
    (∀ fv, jGetD fv "__typename" Json.null = Json.str "ProjectV2ItemFieldNumberValue" →
      scalarOf fv = jGetD fv "number" (Json.str "N/A")) ∧
    (∀ fv t d, jGetD fv "__typename" Json.null =
        Json.str "ProjectV2ItemFieldIterationValue" →
      jGetD fv "title" (Json.str "N/A") = Json.str t →
      jGetD fv "startDate" (Json.str "N/A") = Json.str d →
      scalarOf fv = Json.str (t ++ " (Start: " ++ d ++ ")")) ∧
    (∀ fv t, jGetD fv "__typename" Json.null = Json.str t →
      t ≠ "ProjectV2ItemFieldTextValue" → t ≠ "ProjectV2ItemFieldDateValue" →
      t ≠ "ProjectV2ItemFieldSingleSelectValue" → t ≠ "ProjectV2ItemFieldNumberValue" →
      t ≠ "ProjectV2ItemFieldIterationValue" →
      scalarOf fv = Json.str "N/A") ∧
    (∀ fv, jGetD fv "__typename" Json.null = Json.null →
      scalarOf fv = Json.str "N/A") ∧
    (∀ fv fs, jGetD fv "field" (Json.obj []) = Json.obj fs →
      jLookup fs "name" = none → fieldNameOf fv = "UnknownField") ∧
    (∀ fv fs s, jGetD fv "field" (Json.obj []) = Json.obj fs →
      jLookup fs "name" = some (Json.str s) → fieldNameOf fv = s) ∧
    (∀ nodes k, jLookup (process_field_values nodes) k =
      ((nodes.filter (fun fv => fieldNameOf fv == k)).getLast?).map scalarOf) := by
  refine ⟨?_, ?_, ?_, ?_, ?_, ?_, ?_, ?_, ?_, ?_, ?_, ?_, ?_, ?_⟩
  · intro env o n limit pid log resp node itemsv items2 h1 h2 hn htn hi hti hnodes
    have hjn : jIndex resp "node" = node := jIndex_of_pyGet hn
    have hji : jIndex node "items" = itemsv := jIndex_of_pyGet hi
    simp only [get_project_items, h1]
    simp [h2, hn, htn, hjn, hi, hti, hji, hnodes, asArr]
  · intro item fvj nodesL hfv htf hnodes hne
    have hjf : jIndex item "fieldValues" = fvj := jIndex_of_pyGet hfv
    have hjn : jIndex fvj "nodes" = Json.arr nodesL := jIndex_of_pyGet hnodes
    have htl : truthy (Json.arr nodesL) = true := by
      cases nodesL with
      | nil => exact absurd rfl hne
      | cons a l => simp [truthy]
    simp [process_item, hfv, htf, hjf, hnodes, hjn, htl, asArr]
  · intro item fvj hfv hnodes
    have hjf : jIndex item "fieldValues" = fvj := jIndex_of_pyGet hfv
    simp [process_item, hfv, hjf, hnodes, truthy]
  · intro item hfv
    simp [process_item, hfv]
  · intro fv h
    simp [scalarOf, h]
  · intro fv h
    simp [scalarOf, h]
  · intro fv h
    simp [scalarOf, h]
  · intro fv h
    simp [scalarOf, h]
  · intro fv t d h ht hd
    simp [scalarOf, h, ht, hd, jRender]
  · intro fv t h h1 h2 h3 h4 h5
    simp [scalarOf, h, h1, h2, h3, h4, h5]
  · intro fv h
    simp [scalarOf, h]
  · intro fv fs h hn
    simp [fieldNameOf, h, hn]
  · intro fv fs s h hn
    simp [fieldNameOf, h, hn]
  · exact process_field_values_lookup

/-- Counterexample to C4 as stated: an item whose `fieldValues.nodes`
list is present but empty is returned by `get_project_items` with its
raw ordered-sequence structure intact — the (empty) name-to-scalar
mapping does not replace it, contrary to the claim that the mapping
replaces the sequence on every returned item. -/
theorem C4_counterexample :
    (get_project_items
      (fun c => match c with
        | GQLCall.projectIdQ _ _ => .ok (Json.obj [("organization",
            Json.obj [("projectV2", Json.obj [("id", Json.str "PRJ")])])])
        | GQLCall.projectItemsQ _ _ => .ok (Json.obj [("node",
            Json.obj [("items", Json.obj [("nodes", Json.arr [Json.obj
              [("id", Json.str "I1"),
               ("fieldValues", Json.obj [("nodes", Json.arr [])])]])])])])
        | _ => .error ⟨"unexpected"⟩)
      "acme" 1 20).1 =
      .ok (Json.arr [Json.obj [("id", Json.str "I1"),
        ("fieldValues", Json.obj [("nodes", Json.arr [])])]]) ∧
    Json.obj [("nodes", Json.arr [])] ≠ Json.obj (process_field_values []) := by
  constructor
  · rfl
  · intro h
    simp [process_field_values] at h

/-- Witness for the amended C4: the spec scenario — an Iteration
field-value record with title "Sprint 4" and startDate "2025-01-01"
normalizes to the scalar "Sprint 4 (Start: 2025-01-01)"; and a
non-empty field-value list is replaced by the mapping. -/
theorem C4_witness :
    scalarOf (Json.obj [("__typename", Json.str "ProjectV2ItemFieldIterationValue"),
      ("title", Json.str "Sprint 4"), ("startDate", Json.str "2025-01-01"),
      ("field", Json.obj [("name", Json.str "Iteration")])]) =
      Json.str "Sprint 4 (Start: 2025-01-01)" ∧
    process_item (Json.obj [("id", Json.str "I1"),
      ("fieldValues", Json.obj [("nodes", Json.arr [Json.obj
        [("__typename", Json.str "ProjectV2ItemFieldTextValue"),
         ("text", Json.str "hello"),
         ("field", Json.obj [("name", Json.str "Status")])]])])]) =
      jSet (Json.obj [("id", Json.str "I1"),
        ("fieldValues", Json.obj [("nodes", Json.arr [Json.obj
          [("__typename", Json.str "ProjectV2ItemFieldTextValue"),
           ("text", Json.str "hello"),
           ("field", Json.obj [("name", Json.str "Status")])]])])])
        "fieldValues"
        (Json.obj (process_field_values [Json.obj
          [("__typename", Json.str "ProjectV2ItemFieldTextValue"),
           ("text", Json.str "hello"),
           ("field", Json.obj [("name", Json.str "Status")])]])) := by
  constructor
  · have h := C4_field_value_normalization.2.2.2.2.2.2.2.2.1
      (Json.obj [("__typename", Json.str "ProjectV2ItemFieldIterationValue"),
        ("title", Json.str "Sprint 4"), ("startDate", Json.str "2025-01-01"),
        ("field", Json.obj [("name", Json.str "Iteration")])])
      "Sprint 4" "2025-01-01" rfl rfl rfl
    simpa using h
  · exact C4_field_value_normalization.2.1
      (Json.obj [("id", Json.str "I1"),
        ("fieldValues", Json.obj [("nodes", Json.arr [Json.obj
          [("__typename", Json.str "ProjectV2ItemFieldTextValue"),
           ("text", Json.str "hello"),
           ("field", Json.obj [("name", Json.str "Status")])]])])])
      (Json.obj [("nodes", Json.arr [Json.obj
        [("__typename", Json.str "ProjectV2ItemFieldTextValue"),
         ("text", Json.str "hello"),
         ("field", Json.obj [("name", Json.str "Status")])]])])
      [Json.obj [("__typename", Json.str "ProjectV2ItemFieldTextValue"),
        ("text", Json.str "hello"),
        ("field", Json.obj [("name", Json.str "Status")])]]
      rfl rfl rfl (by simp)
